import Mathlib

/-!
# Verification of the StarPop reconciliation pipeline

A shallow embedding of the POP (proof-of-prior) reconciliation pipeline:
the field comparators (`star_util.py`), the extraction normalizer, the
field-by-field matcher, the local tracking store and the reconciliation
engine (`pop_automation.py`, `local_db.py`).

Python runtime values are modelled by `PyVal`; Python exceptions by
`PyExc` and fallible code by `Except PyExc`.  Python locals that may be
unbound are modelled as `Option` locals whose final read raises
`UnboundLocalError` when still `none`, matching CPython semantics.
-/

namespace StarPop

/-- A Python runtime value as it occurs in this pipeline: `None`, booleans,
integers, strings, `datetime` objects (a calendar date plus a time-of-day
payload that equality on `.date()` ignores), JSON-style dictionaries with
string keys, and lists. -/
inductive PyVal where
  | none : PyVal
  | bool : Bool → PyVal
  | int : Int → PyVal
  | str : String → PyVal
  | dt : Nat → Nat → Nat → Nat → PyVal   -- year, month, day, seconds-of-day
  | obj : List (String × PyVal) → PyVal
  | arr : List PyVal → PyVal

mutual

/-- Structural equality on `PyVal` (Python `==` restricted to same-type
operands; the numeric cross cases are layered on in `pyEq`). -/
def PyVal.beq : PyVal → PyVal → Bool
  | .none, .none => true
  | .bool a, .bool b => a == b
  | .int a, .int b => a == b
  | .str a, .str b => a == b
  | .dt y1 m1 d1 t1, .dt y2 m2 d2 t2 => y1 == y2 && m1 == m2 && d1 == d2 && t1 == t2
  | .obj a, .obj b => PyVal.beqFields a b
  | .arr a, .arr b => PyVal.beqList a b
  | _, _ => false

/-- Pairwise equality of dict entries. -/
def PyVal.beqFields : List (String × PyVal) → List (String × PyVal) → Bool
  | [], [] => true
  | (k1, v1) :: r1, (k2, v2) :: r2 => k1 == k2 && PyVal.beq v1 v2 && PyVal.beqFields r1 r2
  | _, _ => false

/-- Elementwise equality of lists. -/
def PyVal.beqList : List PyVal → List PyVal → Bool
  | [], [] => true
  | x :: xs, y :: ys => PyVal.beq x y && PyVal.beqList xs ys
  | _, _ => false

end

instance : BEq PyVal := ⟨PyVal.beq⟩

/-- The Python exceptions this pipeline can raise. -/
inductive PyExc where
  | typeError : PyExc
  | keyError : PyExc
  | attributeError : PyExc
  | indexError : PyExc
  | unboundLocal : String → PyExc
deriving DecidableEq, Repr

/-- First binding of a key in a Python dict (JSON objects have unique keys). -/
def lookupKey (fs : List (String × PyVal)) (k : String) : Option PyVal :=
  (fs.find? (fun p => p.1 == k)).map (·.2)

/-- Python truthiness test (`if not x`): `None`, `False`, `0`, `""`, `{}`,
`[]` are falsy. -/
def pyFalsy : PyVal → Bool
  | .none => true
  | .bool b => !b
  | .int n => n == 0
  | .str s => s == ""
  | .dt _ _ _ _ => false
  | .obj fs => fs.isEmpty
  | .arr xs => xs.isEmpty

/-- Substring test at any position of the haystack's character list. -/
def containsSubAux (needle : List Char) : List Char → Bool
  | [] => needle.isPrefixOf []
  | c :: rest => needle.isPrefixOf (c :: rest) || containsSubAux needle rest

/-- Python `needle in hay` on strings: substring containment. -/
def strContainsSub (hay needle : String) : Bool :=
  containsSubAux needle.toList hay.toList

/-- Python `key in x` for a string key: dict-key membership, substring test
on strings, element membership on lists; `TypeError` otherwise. -/
def pyIn (key : String) : PyVal → Except PyExc Bool
  | .obj fs => .ok (fs.any (fun p => p.1 == key))
  | .str s => .ok (strContainsSub s key)
  | .arr xs => .ok (xs.any (fun v => match v with | .str t => t == key | _ => false))
  | _ => .error .typeError

/-- Python `x[key]` for a string key: dict indexing (`KeyError` when the key
is absent), `TypeError` on any non-dict. -/
def pyIndex (v : PyVal) (key : String) : Except PyExc PyVal :=
  match v with
  | .obj fs =>
    match lookupKey fs key with
    | some x => .ok x
    | Option.none => .error .keyError
  | _ => .error .typeError

/-- Python `x.get(key)` with default `None`: `AttributeError` on non-dicts. -/
def pyGet (v : PyVal) (key : String) : Except PyExc PyVal :=
  match v with
  | .obj fs => .ok ((lookupKey fs key).getD .none)
  | _ => .error .attributeError

/-- The whitespace characters stripped by Python `str.strip()` (ASCII part). -/
def isPySpace (c : Char) : Bool :=
  c == ' ' || c == '\t' || c == '\n' || c == '\r' || c == '\x0b' || c == '\x0c'

/-- Python `str.strip()`: drop leading and trailing whitespace. -/
def pyStrip (s : String) : String :=
  String.mk (((s.toList.dropWhile isPySpace).reverse.dropWhile isPySpace).reverse)

/-- Python `str.lower()` (ASCII case folding, which is all this data uses). -/
def pyLowerStr (s : String) : String :=
  String.mk (s.toList.map Char.toLower)

/-- Python `x.lower()`: `AttributeError` on non-strings (notably on `None`). -/
def pyLower (v : PyVal) : Except PyExc String :=
  match v with
  | .str s => .ok (pyLowerStr s)
  | _ => .error .attributeError

/-- Python `x.strip()`: `AttributeError` on non-strings. -/
def pyStripVal (v : PyVal) : Except PyExc String :=
  match v with
  | .str s => .ok (pyStrip s)
  | _ => .error .attributeError

/-- Decimal value of an all-digit character run. -/
def digitsToNatAux : List Char → Nat → Nat
  | [], acc => acc
  | c :: rest, acc => digitsToNatAux rest (acc * 10 + (c.toNat - '0'.toNat))

/-- Parse a non-empty all-digit character list as a decimal `Nat`. -/
def digitsToNat? (cs : List Char) : Option Nat :=
  if !cs.isEmpty && cs.all Char.isDigit then some (digitsToNatAux cs 0) else Option.none

/-- Parse a non-empty all-digit string as a decimal `Nat`. -/
def strDigitsToNat? (s : String) : Option Nat :=
  digitsToNat? s.toList

/-- Python `int(x)` restricted to the values appearing here, as an `Option`
(`none` = the `ValueError`/`TypeError` that the caller catches): integers
pass through, booleans become 0/1, strings are parsed as an optionally
signed decimal integer after stripping whitespace, everything else fails. -/
def pyToInt (v : PyVal) : Option Int :=
  match v with
  | .int n => some n
  | .bool b => some (if b then 1 else 0)
  | .str s =>
    match (pyStrip s).toList with
    | '-' :: rest => (digitsToNat? rest).map (fun n => -(n : Int))
    | '+' :: rest => (digitsToNat? rest).map (fun n => (n : Int))
    | cs => (digitsToNat? cs).map (fun n => (n : Int))
  | _ => Option.none

/-- Python `a == b` on these values (structural, with `bool`/`int` numeric
cross-equality as in Python). -/
def pyEq (a b : PyVal) : Bool :=
  match a, b with
  | .bool x, .int y => (if x then (1 : Int) else 0) == y
  | .int x, .bool y => x == (if y then (1 : Int) else 0)
  | _, _ => a == b

/-- Gregorian leap year, as used by Python `datetime`. -/
def isLeap (y : Nat) : Bool :=
  (y % 4 == 0 && y % 100 != 0) || y % 400 == 0

/-- Days in a month, as validated by Python `datetime`. -/
def daysInMonth (y m : Nat) : Nat :=
  if m == 2 then (if isLeap y then 29 else 28)
  else if m == 4 || m == 6 || m == 9 || m == 11 then 30
  else 31

/-- Split a character list on `-`. -/
def splitOnDashAux : List Char → List Char → List String
  | [], acc => [String.mk acc.reverse]
  | c :: rest, acc =>
    if c == '-' then String.mk acc.reverse :: splitOnDashAux rest []
    else splitOnDashAux rest (c :: acc)

/-- Split a string on `-` (the only separator `"%Y-%m-%d"` uses). -/
def splitOnDash (s : String) : List String :=
  splitOnDashAux s.toList []

/-- Model of `datetime.strptime(s, "%Y-%m-%d")` as a partial parse: a 4-digit year,
a 1-2 digit month and day, separated by `-`, forming a valid calendar date;
`none` models the `ValueError` the caller catches. -/
def strptimeYMD (s : String) : Option (Nat × Nat × Nat) :=
  match splitOnDash s with
  | [ys, ms, ds] =>
    match strDigitsToNat? ys, strDigitsToNat? ms, strDigitsToNat? ds with
    | some y, some m, some d =>
      if ys.length == 4 && (ms.length == 1 || ms.length == 2)
          && (ds.length == 1 || ds.length == 2)
          && 1 ≤ y && 1 ≤ m && m ≤ 12 && 1 ≤ d && d ≤ daysInMonth y m then
        some (y, m, d)
      else Option.none
    | _, _, _ => Option.none
  | _ => Option.none

/-- Model of `star_util.compare_dates`: each side that is a string is parsed with
`strptime(_, "%Y-%m-%d")`, a parse failure returning `False`; then the two
values are compared by `.date()`, which raises `AttributeError` on anything
that is not a `datetime`. -/
def compare_dates (date1 date2 : PyVal) : Except PyExc Bool := do
  let d1 ← match date1 with
    | .str s =>
      match strptimeYMD s with
      | some (y, m, d) => pure (PyVal.dt y m d 0)
      | Option.none => return false
    | v => pure v
  let d2 ← match date2 with
    | .str s =>
      match strptimeYMD s with
      | some (y, m, d) => pure (PyVal.dt y m d 0)
      | Option.none => return false
    | v => pure v
  match d1, d2 with
  | .dt y1 m1 dd1 _, .dt y2 m2 dd2 _ => return (y1 == y2 && m1 == m2 && dd1 == dd2)
  | _, _ => throw PyExc.attributeError

/-- Model of `star_util.compare_strings`: both `None` → `True`; exactly one `None` →
`False`; otherwise compare the two values stripped (`.strip()` raising
`AttributeError` on non-strings). -/
def compare_strings (str1 str2 : PyVal) : Except PyExc Bool := do
  if str1 == PyVal.none && str2 == PyVal.none then
    return true
  if str1 == PyVal.none || str2 == PyVal.none then
    return false
  let a ← pyStripVal str1
  let b ← pyStripVal str2
  return (a == b)

/-- Model of `pop_automation.PopResult`: the Extraction Normalizer's output record. -/
structure PopResult where
  all_fields_present : Bool
  json_output : List (String × PyVal)
  policy_id : PyVal
  named_insured : PyVal
  effective_date : PyVal
  expiration_date : PyVal
  agent_code : Option Int
  prior_carrier : PyVal

/-- Model of `pop_automation.FindPopFieldsResult`: the authoritative record fetched
from the system of record (positional row values, so each field may be any
Python value the driver produced). -/
structure FindPopFieldsResult where
  policy_id : PyVal
  named_insured : PyVal
  effective_date : PyVal
  expiration_date : PyVal
  agent_code : PyVal
  prior_carrier : PyVal

/-- Model of `pop_automation.MatchField`: one field discrepancy. -/
structure MatchField where
  field_name : String
  pop_document_value : PyVal
  sqldb_value : PyVal

/-- Model of `pop_automation.MatchResult`: one document's match outcome. -/
structure MatchResult where
  policy_id : PyVal
  all_fields_match : Bool
  fields_that_dont_match : List MatchField

/-- The guarded `int(agent_info["agent_number"])` together with its
`except (ValueError, TypeError)` handler: indexing a non-dict or a failed
`int()` conversion both land in the handler, i.e. `none`. -/
def agentNumberAsInt (agent_info : PyVal) : Option Int :=
  match agent_info with
  | .obj fs => (lookupKey fs "agent_number").bind pyToInt
  | _ => Option.none

/-- Model of `pop_automation.extract_pop_info`: normalizes the parsed JSON object
into a `PopResult`.  Locals `policy_id`, `effective_date` and
`expiration_date` start unbound; reading one that was never assigned when
building the final `PopResult` raises `UnboundLocalError`, in the keyword
order of the constructor call. -/
def extract_pop_info (json_result : List (String × PyVal)) : Except PyExc PopResult := do
  let mut all_fields_present := true
  let mut agent_code : Option Int := Option.none
  let mut policy_id : Option PyVal := Option.none
  let mut effective_date : Option PyVal := Option.none
  let mut expiration_date : Option PyVal := Option.none
  match lookupKey json_result "insurance_agent_info" with
  | some agent_info =>
    if (← pyIn "agent_number" agent_info) then
      match agentNumberAsInt agent_info with
      | some n => agent_code := some n
      | Option.none =>
        agent_code := Option.none
        all_fields_present := false
    else
      all_fields_present := false
  | Option.none =>
    all_fields_present := false
  let policy_info := (lookupKey json_result "policy_summary").getD (.obj [])
  if pyFalsy policy_info then
    all_fields_present := false
  else
    if (← pyIn "policy_number" policy_info) then
      policy_id := some (← pyIndex policy_info "policy_number")
    else
      all_fields_present := false
    if (← pyIn "policy_period" policy_info) then
      let policy_period ← pyIndex policy_info "policy_period"
      if (← pyIn "start_date" policy_period) then
        effective_date := some (← pyIndex policy_period "start_date")
      else
        all_fields_present := false
      if (← pyIn "end_date" policy_period) then
        expiration_date := some (← pyIndex policy_period "end_date")
      else
        all_fields_present := false
    else
      all_fields_present := false
    if (← pyIn "underwritten_by" policy_info) then
      let _ ← pyIndex policy_info "underwritten_by"
    else
      all_fields_present := false
  let mut named_insured ← pyGet ((lookupKey json_result "named_insured").getD (.obj [])) "name"
  if pyFalsy named_insured then
    all_fields_present := false
  else
    match named_insured with
    | .str s => named_insured := .str (pyStrip s)
    | _ => throw PyExc.attributeError
  let pid ← match policy_id with
    | some v => pure v
    | Option.none => throw (PyExc.unboundLocal "policy_id")
  let eff ← match effective_date with
    | some v => pure v
    | Option.none => throw (PyExc.unboundLocal "effective_date")
  let expd ← match expiration_date with
    | some v => pure v
    | Option.none => throw (PyExc.unboundLocal "expiration_date")
  return { all_fields_present := all_fields_present
           json_output := json_result
           policy_id := pid
           named_insured := named_insured
           effective_date := eff
           expiration_date := expd
           agent_code := agent_code
           prior_carrier := PyVal.none }

/-- The Python value held by `PopResult.agent_code` (an `int` or `None`). -/
def optIntToPyVal : Option Int → PyVal
  | Option.none => PyVal.none
  | some n => PyVal.int n

/-- Model of `pop_automation.compute_match`: field-by-field comparison of the
extracted record against the authoritative record, accumulating a
`MatchField` per mismatch. -/
def compute_match (pop_document_result : PopResult) (pop_sqldb_result : FindPopFieldsResult) :
    Except PyExc MatchResult := do
  let mut all_fields_match := true
  let mut fields_that_dont_match : List MatchField := []
  let docName ← pyLower pop_document_result.named_insured
  let dbName ← pyLower pop_sqldb_result.named_insured
  if docName != dbName then
    all_fields_match := false
    fields_that_dont_match := fields_that_dont_match ++
      [⟨"named_insured", pop_document_result.named_insured, pop_sqldb_result.named_insured⟩]
  if !(← compare_dates pop_document_result.effective_date pop_sqldb_result.effective_date) then
    all_fields_match := false
    fields_that_dont_match := fields_that_dont_match ++
      [⟨"effective_date", pop_document_result.effective_date, pop_sqldb_result.effective_date⟩]
  if !(← compare_dates pop_document_result.expiration_date pop_sqldb_result.expiration_date) then
    all_fields_match := false
    fields_that_dont_match := fields_that_dont_match ++
      [⟨"expiration_date", pop_document_result.expiration_date, pop_sqldb_result.expiration_date⟩]
  if !(pyEq (optIntToPyVal pop_document_result.agent_code) pop_sqldb_result.agent_code) then
    all_fields_match := false
    fields_that_dont_match := fields_that_dont_match ++
      [⟨"agent_code", optIntToPyVal pop_document_result.agent_code, pop_sqldb_result.agent_code⟩]
  if !(← compare_strings pop_document_result.prior_carrier pop_sqldb_result.prior_carrier) then
    all_fields_match := false
    fields_that_dont_match := fields_that_dont_match ++
      [⟨"prior_carrier", pop_document_result.prior_carrier, pop_sqldb_result.prior_carrier⟩]
  return ⟨pop_sqldb_result.policy_id, all_fields_match, fields_that_dont_match⟩

/-- A row of the `pop_local_state` table, in the column order
`(PopProcessingId, FileID, originaldate, filepath, status)` that every
`SELECT` of `local_db.py` uses (so `record[0]` is the processing id and
`record[4]` the status). -/
structure PopRecord where
  pop_processing_id : String
  file_id : String
  originaldate : String
  filepath : String
  status : String
deriving DecidableEq, Repr

/-- Model of `local_db.PopLocalDatabase.get_record_by_file_id`: `fetchone` on
`SELECT ... WHERE FileID = ?` — the first stored row with that file id. -/
def get_record_by_file_id (db : List PopRecord) (file_id : String) : Option PopRecord :=
  db.find? (fun r => r.file_id == file_id)

/-- Model of `pop_automation.should_process_file_check_local_db`: `True` (process)
when no record exists or the record's status (`record[4]`) is
`NOT_PROCESSED`. -/
def should_process_file_check_local_db (db : List PopRecord) (file_id : String) : Bool :=
  match get_record_by_file_id db file_id with
  | some record => record.status == "NOT_PROCESSED"
  | Option.none => true

/-- Model of `local_db.PopLocalDatabase.update_status`: `UPDATE ... SET status`
keyed by `PopProcessingId`; the returned flag is `rowcount > 0`. -/
def update_status (db : List PopRecord) (pop_processing_id status : String) :
    List PopRecord × Bool :=
  (db.map (fun r =>
      if r.pop_processing_id == pop_processing_id then { r with status := status } else r),
   db.any (fun r => r.pop_processing_id == pop_processing_id))

/-- Model of `local_db.PopLocalDatabase.insert_record` with the fresh uuid passed in
explicitly. -/
def insert_record (db : List PopRecord) (new_id file_id original_date filepath status : String) :
    List PopRecord :=
  db ++ [⟨new_id, file_id, original_date, filepath, status⟩]

/-- Model of `pop_automation.update_local_db`: update the status of the existing
record for `file_id` in place, else insert a fresh record with the given
status.  Returns the new store and the success flag. -/
def update_local_db (db : List PopRecord) (new_id file_id date_created filepath status : String) :
    List PopRecord × Bool :=
  match get_record_by_file_id db file_id with
  | some record => update_status db record.pop_processing_id status
  | Option.none => (insert_record db new_id file_id date_created filepath status, true)

/-- One run's external collaborators, fixed up front: the result of the
file copy (`copy_file_into_localdir`, `none` = I/O failure), the JSON the
document-understanding call would return (`none` = failure), and the
authoritative rows the `find_popfields` query would return (`none` = query
failure). -/
structure Env where
  copy_dest : Option String
  gemini_json : Option (List (String × PyVal))
  sql_rows : Option (List FindPopFieldsResult)

/-- Model of `pop_automation.process_document_with_gemini`: `None` from the API ⇒
Python `None`; otherwise the (possibly partial) normalizer result, whose
exceptions propagate. -/
def process_document_with_gemini (gemini_json : Option (List (String × PyVal))) :
    Except PyExc (Option PopResult) :=
  match gemini_json with
  | some parsed_json => (extract_pop_info parsed_json).map some
  | Option.none => .ok Option.none

/-- The observable effect of one `process_incoming_pop_transaction` call:
the tracking store afterwards, the returned value (or escaped exception),
and how many document-understanding calls were made. -/
structure TxnResult where
  db : List PopRecord
  outcome : Except PyExc (Option MatchResult)
  gemini_calls : Nat

/-- Model of `pop_automation.process_incoming_pop_transaction`: admission check,
local copy, extraction, authoritative fetch (`sqldb_results[0]`: a `None`
query result raises `TypeError`, an empty one `IndexError`), comparison,
and the final status write. -/
def process_incoming_pop_transaction (env : Env) (db : List PopRecord) (new_id : String)
    (filepath date_created file_id policy_id : String) : TxnResult :=
  if should_process_file_check_local_db db file_id then
    match env.copy_dest with
    | Option.none =>
      ⟨(update_local_db db new_id file_id date_created filepath "FAILED").1, .ok Option.none, 0⟩
    | some _ =>
      match process_document_with_gemini env.gemini_json with
      | .error e => ⟨db, .error e, 1⟩
      | .ok document_result =>
        match env.sql_rows with
        | Option.none => ⟨db, .error .typeError, 1⟩
        | some [] => ⟨db, .error .indexError, 1⟩
        | some (sqldb_result :: _) =>
          let cm : Except PyExc MatchResult :=
            match document_result with
            | Option.none => .error .attributeError
            | some doc => compute_match doc sqldb_result
          match cm with
          | .error e => ⟨db, .error e, 1⟩
          | .ok match_result =>
            ⟨(update_local_db db new_id file_id date_created filepath "PROCESSED").1,
             .ok (some match_result), 1⟩
  else
    ⟨db, .ok Option.none, 0⟩

/-- One candidate row `(FilePath, Date Created, FileID, PolicyID)` of the
poll query. -/
structure Row where
  file_path : String
  date_created : String
  file_id : String
  policy_id : String

/-- The observable effect of one `run_pop_automation_loop` call: the store
afterwards, an escaped exception if any, the file ids handed to the engine,
and the file ids for which a match outcome was produced end-to-end. -/
structure LoopResult where
  db : List PopRecord
  exc : Option PyExc
  attempted_file_ids : List String
  completed_file_ids : List String

/-- Model of `pop_automation.run_pop_automation_loop`: a failed or empty poll does
nothing; otherwise the engine is invoked on the first row only and the
loop `break`s unconditionally. -/
def run_pop_automation_loop (env : Env) (db : List PopRecord) (new_id : String)
    (rows : Option (List Row)) : LoopResult :=
  match rows with
  | Option.none => ⟨db, Option.none, [], []⟩
  | some [] => ⟨db, Option.none, [], []⟩
  | some (row :: _) =>
    let t := process_incoming_pop_transaction env db new_id
      row.file_path row.date_created row.file_id row.policy_id
    match t.outcome with
    | .error e => ⟨t.db, some e, [row.file_id], []⟩
    | .ok Option.none => ⟨t.db, Option.none, [row.file_id], []⟩
    | .ok (some _) => ⟨t.db, Option.none, [row.file_id], [row.file_id]⟩

/-! ## Specification-side helpers and concrete fixtures -/

/-- The domain the spec gives `datesEqual`: each side is an
already-structured date or a string. -/
def DateOrStr (v : PyVal) : Prop :=
  (∃ y m d t, v = .dt y m d t) ∨ (∃ s, v = .str s)

/-- The calendar date a comparand denotes: the date part of a `datetime`,
or the `strptime` parse of a string; `none` on parse failure. -/
def resolveDate : PyVal → Option (Nat × Nat × Nat)
  | .dt y m d _ => some (y, m, d)
  | .str s => strptimeYMD s
  | _ => Option.none

/-- The discrepancy list `compute_match` builds when the five comparisons
come out `c1..c5` (`true` = field matched), in source order. -/
def mkMismatches (c1 c2 c3 c4 c5 : Bool) (doc : PopResult) (dbr : FindPopFieldsResult) :
    List MatchField :=
  (if c1 then [] else [⟨"named_insured", doc.named_insured, dbr.named_insured⟩]) ++
  (if c2 then [] else [⟨"effective_date", doc.effective_date, dbr.effective_date⟩]) ++
  (if c3 then [] else [⟨"expiration_date", doc.expiration_date, dbr.expiration_date⟩]) ++
  (if c4 then [] else [⟨"agent_code", optIntToPyVal doc.agent_code, dbr.agent_code⟩]) ++
  (if c5 then [] else [⟨"prior_carrier", doc.prior_carrier, dbr.prior_carrier⟩])

/-- A fully populated document-understanding result matching the JSON
schema of `gemini_with_pdf.define_json_schema`. -/
def fullInput : List (String × PyVal) :=
  [("document_type", .str "Auto Insurance Declarations Page"),
   ("policy_summary", .obj
     [("policy_number", .str "FL0012345"),
      ("underwritten_by", .str "Ocean Harbor"),
      ("issue_date", .str "2024-01-01"),
      ("policy_period", .obj
        [("start_date", .str "2024-01-15"), ("end_date", .str "2024-07-15")]),
      ("total_6_month_policy_premium", .str "$1,755.00")]),
   ("insurance_agent_info", .obj
     [("agent_name", .str "ESTRELLA INSURANCE"), ("agent_number", .str "104")]),
   ("named_insured", .obj
     [("name", .str " John Doe "), ("address", .str "1 Main St")]),
   ("drivers_and_household_residents", .arr [.obj [("name", .str "John Doe")]]),
   ("vehicle_details", .arr [.obj
     [("year", .str "2020"), ("make", .str "Toyota"),
      ("model", .str "Corolla"), ("vin", .str "VIN123")]])]

/-- The same result with the `policy_summary` object missing. -/
def noPolicySummaryInput : List (String × PyVal) :=
  [("document_type", .str "Auto Insurance Declarations Page"),
   ("insurance_agent_info", .obj
     [("agent_name", .str "ESTRELLA INSURANCE"), ("agent_number", .str "104")]),
   ("named_insured", .obj
     [("name", .str " John Doe "), ("address", .str "1 Main St")]),
   ("drivers_and_household_residents", .arr [.obj [("name", .str "John Doe")]]),
   ("vehicle_details", .arr [.obj
     [("year", .str "2020"), ("make", .str "Toyota"),
      ("model", .str "Corolla"), ("vin", .str "VIN123")]])]

/-- Scenario B's extracted record: everything agrees with the
authoritative record except the agent code (104). -/
def docScenarioB : PopResult :=
  { all_fields_present := true, json_output := [], policy_id := .str "FL0012345",
    named_insured := .str "John Doe", effective_date := .str "2024-01-15",
    expiration_date := .str "2024-07-15", agent_code := some 104,
    prior_carrier := PyVal.none }

/-- Scenario B's authoritative record: agent code 207, all else matching
(named insured differing only in case, dates structured). -/
def dbrScenarioB : FindPopFieldsResult :=
  { policy_id := .str "FL0012345", named_insured := .str "JOHN DOE",
    effective_date := .dt 2024 1 15 0, expiration_date := .dt 2024 7 15 0,
    agent_code := .int 207, prior_carrier := PyVal.none }

/-- An extracted record whose agent code is `None`, all else as in B. -/
def docNoAgent : PopResult :=
  { docScenarioB with agent_code := Option.none }

/-- An authoritative record whose agent code is `None`, all else matching. -/
def dbrNoAgent : FindPopFieldsResult :=
  { dbrScenarioB with agent_code := PyVal.none }

/-- An authoritative record agreeing with `fullInput`'s extraction. -/
def dbrFull : FindPopFieldsResult :=
  { policy_id := .str "FL0012345", named_insured := .str "JOHN DOE",
    effective_date := .dt 2024 1 15 0, expiration_date := .dt 2024 7 15 0,
    agent_code := .int 104, prior_carrier := PyVal.none }

/-- A tracking store holding file id `F1` with status `PROCESSED`. -/
def dbProcessedF1 : List PopRecord :=
  [⟨"p1", "F1", "2024-01-15 10:30:00", "/claims/auto/x.pdf", "PROCESSED"⟩]

/-- An environment in which every collaborator succeeds. -/
def envAllOk : Env :=
  ⟨some "pop_files/x.pdf", some fullInput, some [dbrFull]⟩

/-- A poll row for the already-processed file `F1`. -/
def rowF1 : Row := ⟨"/claims/auto/x.pdf", "2024-01-15 10:30:00", "F1", "FL0012345"⟩

/-- A poll row for the not-yet-seen file `F2`. -/
def rowF2 : Row := ⟨"/claims/auto/y.pdf", "2024-01-16 09:00:00", "F2", "FL0012345"⟩

/-! ## Theorems -/

/-- Equality of two already-resolved calendar-date triples, phrased the way
the C7 right-hand side resolves. -/
theorem dateEqIffAux (y1 m1 d1 y2 m2 d2 : Nat) :
    ((y1 == y2 && m1 == m2 && d1 == d2) = true ↔
      ∃ p : Nat × Nat × Nat, some (y1, m1, d1) = some p ∧ some (y2, m2, d2) = some p) := by
  constructor
  · intro h
    simp only [Bool.and_eq_true, beq_iff_eq] at h
    exact ⟨(y2, m2, d2), by simp [h.1.1, h.1.2, h.2], rfl⟩
  · rintro ⟨p, hp1, hp2⟩
    have h := hp1.trans hp2.symm
    simp only [Option.some.injEq, Prod.mk.injEq] at h
    simp [Bool.and_eq_true, beq_iff_eq, h.1, h.2.1, h.2.2]

/-- Claim C7: `compare_dates` accepts each side as either a structured date
or a `YYYY-MM-DD` string, returns `false` (without raising) when either
side fails to parse, and returns `true` iff the calendar dates are equal
with time-of-day ignored; for every valid date `d`, both structured and
string forms of `datesEqual(d, d)` are `true`, and
`datesEqual("2024-01-15", "not-a-date") == false`. -/
theorem claim_C7_compare_dates :
    (∀ a b : PyVal, DateOrStr a → DateOrStr b →
      ∃ r : Bool, compare_dates a b = .ok r ∧
        (r = true ↔ ∃ p, resolveDate a = some p ∧ resolveDate b = some p))
    ∧ (∀ y m d t, compare_dates (.dt y m d t) (.dt y m d t) = .ok true)
    ∧ (∀ s p, strptimeYMD s = some p → compare_dates (.str s) (.str s) = .ok true)
    ∧ compare_dates (.str "2024-01-15") (.str "not-a-date") = .ok false := by
  refine ⟨?_, ?_, ?_, by rfl⟩
  · rintro a b (⟨y1, m1, d1, t1, rfl⟩ | ⟨s1, rfl⟩) (⟨y2, m2, d2, t2, rfl⟩ | ⟨s2, rfl⟩)
    · refine ⟨(y1 == y2 && m1 == m2 && d1 == d2), ?_, ?_⟩
      · simp [compare_dates, pure, Except.pure, Bind.bind, Except.bind]
      · simp only [resolveDate]
        exact dateEqIffAux y1 m1 d1 y2 m2 d2
    · cases hp2 : strptimeYMD s2 with
      | none =>
        refine ⟨false, ?_, ?_⟩
        · simp [compare_dates, hp2, pure, Except.pure, Bind.bind, Except.bind]
        · simp [resolveDate, hp2]
      | some p2 =>
        obtain ⟨y2, m2, d2⟩ := p2
        refine ⟨(y1 == y2 && m1 == m2 && d1 == d2), ?_, ?_⟩
        · simp [compare_dates, hp2, pure, Except.pure, Bind.bind, Except.bind]
        · simp only [resolveDate, hp2]
          exact dateEqIffAux y1 m1 d1 y2 m2 d2
    · cases hp1 : strptimeYMD s1 with
      | none =>
        refine ⟨false, ?_, ?_⟩
        · simp [compare_dates, hp1, pure, Except.pure, Bind.bind, Except.bind]
        · simp [resolveDate, hp1]
      | some p1 =>
        obtain ⟨y1, m1, d1⟩ := p1
        refine ⟨(y1 == y2 && m1 == m2 && d1 == d2), ?_, ?_⟩
        · simp [compare_dates, hp1, pure, Except.pure, Bind.bind, Except.bind]
        · simp only [resolveDate, hp1]
          exact dateEqIffAux y1 m1 d1 y2 m2 d2
    · cases hp1 : strptimeYMD s1 with
      | none =>
        refine ⟨false, ?_, ?_⟩
        · simp [compare_dates, hp1, pure, Except.pure, Bind.bind, Except.bind]
        · simp [resolveDate, hp1]
      | some p1 =>
        obtain ⟨y1, m1, d1⟩ := p1
        cases hp2 : strptimeYMD s2 with
        | none =>
          refine ⟨false, ?_, ?_⟩
          · simp [compare_dates, hp1, hp2, pure, Except.pure, Bind.bind, Except.bind]
          · simp [resolveDate, hp2]
        | some p2 =>
          obtain ⟨y2, m2, d2⟩ := p2
          refine ⟨(y1 == y2 && m1 == m2 && d1 == d2), ?_, ?_⟩
          · simp [compare_dates, hp1, hp2, pure, Except.pure, Bind.bind, Except.bind]
          · simp only [resolveDate, hp1, hp2]
            exact dateEqIffAux y1 m1 d1 y2 m2 d2
  · intro y m d t
    simp [compare_dates, pure, Except.pure, Bind.bind, Except.bind]
  · intro s p hp
    obtain ⟨y, m, d⟩ := p
    simp [compare_dates, hp, pure, Except.pure, Bind.bind, Except.bind]

/-- Witness for C7 at a concrete valid date string. -/
theorem claim_C7_compare_dates_witness :
    compare_dates (.str "2024-01-15") (.str "2024-01-15") = .ok true :=
  claim_C7_compare_dates.2.2.1 "2024-01-15" (2024, 1, 15) (by rfl)

/-- Claim C8: `compare_strings` returns `true` when both sides are `None`,
`false` when exactly one side is `None`, and otherwise compares the two
strings with leading/trailing whitespace stripped; in particular
`textEqual(None, None) == true`, `textEqual(None, "x") == false`, and
`textEqual("Acme ", "Acme") == true`. -/
theorem claim_C8_compare_strings :
    compare_strings PyVal.none PyVal.none = .ok true
    ∧ (∀ s : String, compare_strings PyVal.none (.str s) = .ok false)
    ∧ (∀ s : String, compare_strings (.str s) PyVal.none = .ok false)
    ∧ (∀ s t : String, compare_strings (.str s) (.str t) = .ok (pyStrip s == pyStrip t))
    ∧ compare_strings (.str "Acme ") (.str "Acme") = .ok true :=
  ⟨rfl, fun _ => rfl, fun _ => rfl, fun _ _ => rfl, rfl⟩

/-- Evaluation lemma for `compute_match`: once the five comparator calls
are known to succeed with results `dn == dbn`, `b2`, `b3`,
`pyEq (agent codes)` and `b5`, the result is fully determined. -/
theorem compute_match_eval {doc : PopResult} {dbr : FindPopFieldsResult}
    {dn dbn : String} {b2 b3 b5 : Bool}
    (h1 : pyLower doc.named_insured = .ok dn)
    (h2 : pyLower dbr.named_insured = .ok dbn)
    (h3 : compare_dates doc.effective_date dbr.effective_date = .ok b2)
    (h4 : compare_dates doc.expiration_date dbr.expiration_date = .ok b3)
    (h5 : compare_strings doc.prior_carrier dbr.prior_carrier = .ok b5) :
    compute_match doc dbr = .ok
      ⟨dbr.policy_id,
       ((dn == dbn) && b2 && b3 && pyEq (optIntToPyVal doc.agent_code) dbr.agent_code && b5),
       mkMismatches (dn == dbn) b2 b3 (pyEq (optIntToPyVal doc.agent_code) dbr.agent_code) b5
         doc dbr⟩ := by
  cases hc1 : (dn == dbn) <;> cases b2 <;> cases b3 <;>
    cases hc4 : pyEq (optIntToPyVal doc.agent_code) dbr.agent_code <;> cases b5 <;>
    simp [compute_match, h1, h2, h3, h4, h5, hc1, hc4, mkMismatches, bne,
      Bind.bind, Except.bind, pure, Except.pure]

/-- Inversion for `compute_match`: a successful run determines the five
comparator results and the shape of the produced `MatchResult`. -/
theorem compute_match_ok_shape {doc : PopResult} {dbr : FindPopFieldsResult} {m : MatchResult}
    (h : compute_match doc dbr = .ok m) :
    ∃ (dn dbn : String) (b2 b3 b5 : Bool),
      pyLower doc.named_insured = .ok dn ∧
      pyLower dbr.named_insured = .ok dbn ∧
      compare_dates doc.effective_date dbr.effective_date = .ok b2 ∧
      compare_dates doc.expiration_date dbr.expiration_date = .ok b3 ∧
      compare_strings doc.prior_carrier dbr.prior_carrier = .ok b5 ∧
      m = ⟨dbr.policy_id,
           ((dn == dbn) && b2 && b3 && pyEq (optIntToPyVal doc.agent_code) dbr.agent_code && b5),
           mkMismatches (dn == dbn) b2 b3 (pyEq (optIntToPyVal doc.agent_code) dbr.agent_code) b5
             doc dbr⟩ := by
  cases h1 : pyLower doc.named_insured with
  | error e => simp [compute_match, h1, Bind.bind, Except.bind, pure, Except.pure] at h
  | ok dn =>
  cases h2 : pyLower dbr.named_insured with
  | error e => simp [compute_match, h1, h2, Bind.bind, Except.bind, pure, Except.pure] at h
  | ok dbn =>
  cases h3 : compare_dates doc.effective_date dbr.effective_date with
  | error e => simp [compute_match, h1, h2, h3, Bind.bind, Except.bind, pure, Except.pure] at h
  | ok b2 =>
  cases h4 : compare_dates doc.expiration_date dbr.expiration_date with
  | error e => simp [compute_match, h1, h2, h3, h4, Bind.bind, Except.bind, pure, Except.pure] at h
  | ok b3 =>
  cases h5 : compare_strings doc.prior_carrier dbr.prior_carrier with
  | error e => simp [compute_match, h1, h2, h3, h4, h5, Bind.bind, Except.bind, pure, Except.pure] at h
  | ok b5 =>
    rw [compute_match_eval h1 h2 h3 h4 h5] at h
    injection h with h
    exact ⟨dn, dbn, b2, b3, b5, rfl, rfl, rfl, rfl, rfl, h.symm⟩

/-- The discrepancy list is empty exactly when all five comparisons
matched. -/
theorem mkMismatches_nil_iff (c1 c2 c3 c4 c5 : Bool) (doc : PopResult)
    (dbr : FindPopFieldsResult) :
    mkMismatches c1 c2 c3 c4 c5 doc dbr = [] ↔ (c1 && c2 && c3 && c4 && c5) = true := by
  cases c1 <;> cases c2 <;> cases c3 <;> cases c4 <;> cases c5 <;> simp [mkMismatches]

/-- Claim C4: `compute_match` returns `all_fields_match == true` iff its
discrepancy list is empty, and on scenario B (extracted agent code 104 vs
authoritative 207, everything else equal) produces exactly one
`FieldDiscrepancy`, named `agent_code`, with `all_fields_match == false`. -/
theorem claim_C4_compute_match :
    (∀ (doc : PopResult) (dbr : FindPopFieldsResult) (m : MatchResult),
      compute_match doc dbr = .ok m →
        (m.all_fields_match = true ↔ m.fields_that_dont_match = []))
    ∧ compute_match docScenarioB dbrScenarioB =
        .ok ⟨.str "FL0012345", false, [⟨"agent_code", .int 104, .int 207⟩]⟩ := by
  refine ⟨?_, by rfl⟩
  intro doc dbr m h
  obtain ⟨dn, dbn, b2, b3, b5, _, _, _, _, _, hm⟩ := compute_match_ok_shape h
  subst hm
  simp [mkMismatches_nil_iff]

/-- Witness for C4 at scenario B. -/
theorem claim_C4_compute_match_witness :
    ((⟨.str "FL0012345", false, [⟨"agent_code", .int 104, .int 207⟩]⟩ : MatchResult).all_fields_match
        = true
      ↔ (⟨.str "FL0012345", false, [⟨"agent_code", .int 104, .int 207⟩]⟩ :
          MatchResult).fields_that_dont_match = []) :=
  claim_C4_compute_match.1 docScenarioB dbrScenarioB
    ⟨.str "FL0012345", false, [⟨"agent_code", .int 104, .int 207⟩]⟩ (by rfl)

/-- Claim C9 counterexample: with both agent codes `None` (and all other
fields matching), `compute_match` reports a full match with zero
discrepancies — the two `None` codes compare as *equal*, so no
`agent_code` discrepancy is produced, contrary to the claim. -/
theorem claim_C9_counterexample :
    docNoAgent.agent_code = Option.none ∧ dbrNoAgent.agent_code = PyVal.none ∧
    compute_match docNoAgent dbrNoAgent = .ok ⟨.str "FL0012345", true, []⟩ :=
  ⟨rfl, rfl, rfl⟩

/-- Claim C9 (amended): the agent-code comparison in `compute_match` is plain
Python equality on the optional integer code: two `None` codes compare as
equal (producing no discrepancy), and an `agent_code` discrepancy appears
exactly when that equality fails. -/
theorem claim_C9_agent_code_equality :
    pyEq (optIntToPyVal Option.none) PyVal.none = true
    ∧ (∀ (doc : PopResult) (dbr : FindPopFieldsResult) (m : MatchResult),
        compute_match doc dbr = .ok m →
          (("agent_code" ∈ m.fields_that_dont_match.map MatchField.field_name) ↔
            pyEq (optIntToPyVal doc.agent_code) dbr.agent_code = false)) := by
  refine ⟨rfl, ?_⟩
  intro doc dbr m h
  obtain ⟨dn, dbn, b2, b3, b5, _, _, _, _, _, hm⟩ := compute_match_ok_shape h
  subst hm
  cases (dn == dbn) <;> cases b2 <;> cases b3 <;>
    cases pyEq (optIntToPyVal doc.agent_code) dbr.agent_code <;> cases b5 <;>
    simp [mkMismatches]

/-- Witness for the amended C9 at the both-`None` fixture. -/
theorem claim_C9_agent_code_equality_witness :
    (("agent_code" ∈
        (⟨.str "FL0012345", true, []⟩ : MatchResult).fields_that_dont_match.map
          MatchField.field_name) ↔
      pyEq (optIntToPyVal docNoAgent.agent_code) dbrNoAgent.agent_code = false) :=
  claim_C9_agent_code_equality.2 docNoAgent dbrNoAgent ⟨.str "FL0012345", true, []⟩ (by rfl)

/-- Claim C10: whenever `compute_match` returns, the discrepancy list is in
the fixed order named_insured, effective_date, expiration_date,
agent_code, prior_carrier (restricted to the mismatching fields), and each
field name appears at most once. -/
theorem claim_C10_discrepancy_order :
    ∀ (doc : PopResult) (dbr : FindPopFieldsResult) (m : MatchResult),
      compute_match doc dbr = .ok m →
        (m.fields_that_dont_match.map MatchField.field_name).Sublist
          ["named_insured", "effective_date", "expiration_date", "agent_code", "prior_carrier"]
        ∧ (m.fields_that_dont_match.map MatchField.field_name).Nodup := by
  intro doc dbr m h
  obtain ⟨dn, dbn, b2, b3, b5, _, _, _, _, _, hm⟩ := compute_match_ok_shape h
  subst hm
  cases (dn == dbn) <;> cases b2 <;> cases b3 <;>
    cases pyEq (optIntToPyVal doc.agent_code) dbr.agent_code <;> cases b5 <;>
    first
    | (simp [mkMismatches]; done)
    | (simp [mkMismatches]; decide)

/-- Witness for C10 at scenario B. -/
theorem claim_C10_discrepancy_order_witness :
    ((⟨.str "FL0012345", false, [⟨"agent_code", .int 104, .int 207⟩]⟩ :
        MatchResult).fields_that_dont_match.map MatchField.field_name).Sublist
      ["named_insured", "effective_date", "expiration_date", "agent_code", "prior_carrier"]
    ∧ ((⟨.str "FL0012345", false, [⟨"agent_code", .int 104, .int 207⟩]⟩ :
        MatchResult).fields_that_dont_match.map MatchField.field_name).Nodup :=
  claim_C10_discrepancy_order docScenarioB dbrScenarioB
    ⟨.str "FL0012345", false, [⟨"agent_code", .int 104, .int 207⟩]⟩ (by rfl)

/-- After `update_local_db` writes status `status` for `file_id`, a lookup
of that `file_id` finds a record carrying exactly that status (whether the
write updated the existing record in place or inserted a fresh one). -/
theorem get_record_update_local_db (db : List PopRecord)
    (new_id file_id date_created filepath status : String) :
    ∃ r, get_record_by_file_id
        (update_local_db db new_id file_id date_created filepath status).1 file_id = some r
      ∧ r.status = status := by
  unfold update_local_db
  cases h : get_record_by_file_id db file_id with
  | none =>
    refine ⟨⟨new_id, file_id, date_created, filepath, status⟩, ?_, rfl⟩
    unfold get_record_by_file_id insert_record
    unfold get_record_by_file_id at h
    rw [List.find?_append, h]
    simp
  | some r =>
    refine ⟨{r with status := status}, ?_, rfl⟩
    unfold get_record_by_file_id update_status
    unfold get_record_by_file_id at h
    rw [List.find?_map]
    have hpf : ((fun rr : PopRecord => rr.file_id == file_id) ∘
        (fun rr : PopRecord =>
          if rr.pop_processing_id == r.pop_processing_id then { rr with status := status }
          else rr)) = (fun rr : PopRecord => rr.file_id == file_id) := by
      funext rr
      cases hrr : rr.pop_processing_id == r.pop_processing_id <;>
        simp [Function.comp, hrr]
    rw [hpf, h]
    simp

/-- Claim C1: the admission check skips a `file_id` (no state advance, zero
extraction calls) exactly when the tracking store holds a record whose
status is anything other than `NOT_PROCESSED`; with no record the document
is eligible; and after a `PROCESSED` write for a `file_id`, a subsequent
admission check for it skips. -/
theorem claim_C1_admission_check (db : List PopRecord) (file_id : String) :
    (should_process_file_check_local_db db file_id = false ↔
      ∃ r, get_record_by_file_id db file_id = some r ∧ r.status ≠ "NOT_PROCESSED")
    ∧ (get_record_by_file_id db file_id = Option.none →
        should_process_file_check_local_db db file_id = true)
    ∧ (∀ (env : Env) (new_id filepath date_created policy_id : String),
        should_process_file_check_local_db db file_id = false →
          process_incoming_pop_transaction env db new_id filepath date_created file_id policy_id
            = ⟨db, .ok Option.none, 0⟩)
    ∧ (∀ new_id date_created filepath : String,
        should_process_file_check_local_db
          (update_local_db db new_id file_id date_created filepath "PROCESSED").1 file_id
          = false) := by
  refine ⟨?_, ?_, ?_, ?_⟩
  · unfold should_process_file_check_local_db
    cases h : get_record_by_file_id db file_id with
    | none => simp
    | some r => simp [beq_eq_false_iff_ne]
  · intro h
    unfold should_process_file_check_local_db
    rw [h]
  · intro env new_id filepath date_created policy_id h
    simp [process_incoming_pop_transaction, h]
  · intro new_id date_created filepath
    obtain ⟨r, hr, hs⟩ :=
      get_record_update_local_db db new_id file_id date_created filepath "PROCESSED"
    unfold should_process_file_check_local_db
    rw [hr]
    simp [hs]

/-- Witness for C1: re-checking `F1`, already `PROCESSED`, skips with zero
extraction calls and an unchanged store. -/
theorem claim_C1_admission_check_witness :
    process_incoming_pop_transaction envAllOk dbProcessedF1 "p2"
      "/claims/auto/x.pdf" "2024-01-15 10:30:00" "F1" "FL0012345"
      = ⟨dbProcessedF1, .ok Option.none, 0⟩ :=
  (claim_C1_admission_check dbProcessedF1 "F1").2.2.1 envAllOk "p2"
    "/claims/auto/x.pdf" "2024-01-15 10:30:00" "FL0012345" (by rfl)

/-- Claim C2 (code bug): when the admitted document's local copy succeeds
but the document-understanding call returns no JSON, the engine does NOT
write `FAILED`: it continues, crashes with `AttributeError` when comparing
(or `TypeError` when the authoritative query also failed), and leaves the
tracking store unchanged, so the required `FAILED` write never happens. -/
theorem claim_C2_extraction_failure_no_failed_write :
    process_incoming_pop_transaction ⟨some "pop_files/x.pdf", Option.none, some [dbrFull]⟩ []
      "p1" "/claims/auto/x.pdf" "2024-01-15" "F2" "FL0012345"
      = ⟨[], .error .attributeError, 1⟩
    ∧ process_incoming_pop_transaction ⟨some "pop_files/x.pdf", Option.none, Option.none⟩ []
      "p1" "/claims/auto/x.pdf" "2024-01-15" "F2" "FL0012345"
      = ⟨[], .error .typeError, 1⟩ :=
  ⟨rfl, rfl⟩

/-- Claim C3 (code bug): the Extraction Normalizer raises instead of
returning a partial record: on an input missing `policy_summary` it raises
`UnboundLocalError` for `policy_id` where the claim expects a returned
record with `all_fields_present == false`; on a fully populated input
matching the schema it does return the complete typed record (with
`prior_carrier` hard-coded to `None`). -/
theorem claim_C3_normalizer_partiality :
    extract_pop_info noPolicySummaryInput = .error (.unboundLocal "policy_id")
    ∧ extract_pop_info fullInput =
        .ok { all_fields_present := true, json_output := fullInput,
              policy_id := .str "FL0012345", named_insured := .str "John Doe",
              effective_date := .str "2024-01-15", expiration_date := .str "2024-07-15",
              agent_code := some 104, prior_carrier := PyVal.none } :=
  ⟨rfl, rfl⟩

/-- Claim C5: if an admitted document's file copy fails, the engine marks the
`file_id` `FAILED`, performs no extraction call, and returns the no-outcome
indicator; the updated store holds a `FAILED` record for the `file_id`. -/
theorem claim_C5_copy_failure (env : Env) (db : List PopRecord)
    (new_id filepath date_created file_id policy_id : String)
    (hadm : should_process_file_check_local_db db file_id = true)
    (hcopy : env.copy_dest = Option.none) :
    process_incoming_pop_transaction env db new_id filepath date_created file_id policy_id
      = ⟨(update_local_db db new_id file_id date_created filepath "FAILED").1,
         .ok Option.none, 0⟩
    ∧ ∃ r, get_record_by_file_id
        (update_local_db db new_id file_id date_created filepath "FAILED").1 file_id = some r
        ∧ r.status = "FAILED" := by
  refine ⟨?_, get_record_update_local_db db new_id file_id date_created filepath "FAILED"⟩
  simp [process_incoming_pop_transaction, hadm, hcopy]

/-- Witness for C5 on an empty store with a failing copy. -/
theorem claim_C5_copy_failure_witness :
    process_incoming_pop_transaction ⟨Option.none, Option.none, Option.none⟩ []
      "p7" "/f.pdf" "2024-02-01" "F7" "P7"
      = ⟨(update_local_db [] "p7" "F7" "2024-02-01" "/f.pdf" "FAILED").1,
         .ok Option.none, 0⟩ :=
  (claim_C5_copy_failure ⟨Option.none, Option.none, Option.none⟩ []
    "p7" "/f.pdf" "2024-02-01" "F7" "P7" (by rfl) rfl).1

/-- Claim C6 counterexample: with the already-processed `F1` first in the
poll result and the eligible `F2` second, the loop stops after the skipped
first row: it completes no document even though the list contains an
eligible one for which (last conjunct) the entire pipeline would have
succeeded — contrary to the claim that the first eligible document is
processed end-to-end. -/
theorem claim_C6_counterexample :
    should_process_file_check_local_db dbProcessedF1 rowF1.file_id = false
    ∧ should_process_file_check_local_db dbProcessedF1 rowF2.file_id = true
    ∧ run_pop_automation_loop envAllOk dbProcessedF1 "p9" (some [rowF1, rowF2])
        = ⟨dbProcessedF1, Option.none, ["F1"], []⟩
    ∧ (run_pop_automation_loop envAllOk dbProcessedF1 "p9" (some [rowF2])).completed_file_ids
        = ["F2"] :=
  ⟨rfl, rfl, rfl, rfl⟩

/-- Claim C6 (amended): the Polling Driver invokes the engine on the first
returned row only — eligible or not — and stops; a failed or empty poll
processes nothing, and when that first row is skipped by the admission
check the run completes no document at all. -/
theorem claim_C6_first_row_only (env : Env) (db : List PopRecord) (new_id : String)
    (row : Row) (rest : List Row) :
    run_pop_automation_loop env db new_id (some (row :: rest))
      = run_pop_automation_loop env db new_id (some [row])
    ∧ (run_pop_automation_loop env db new_id (some (row :: rest))).attempted_file_ids
        = [row.file_id]
    ∧ (should_process_file_check_local_db db row.file_id = false →
        run_pop_automation_loop env db new_id (some (row :: rest))
          = ⟨db, Option.none, [row.file_id], []⟩)
    ∧ run_pop_automation_loop env db new_id Option.none = ⟨db, Option.none, [], []⟩
    ∧ run_pop_automation_loop env db new_id (some []) = ⟨db, Option.none, [], []⟩ := by
  refine ⟨rfl, ?_, ?_, rfl, rfl⟩
  · cases h : (process_incoming_pop_transaction env db new_id
        row.file_path row.date_created row.file_id row.policy_id).outcome with
    | error e => simp [run_pop_automation_loop, h]
    | ok mo => cases mo <;> simp [run_pop_automation_loop, h]
  · intro h
    simp [run_pop_automation_loop, process_incoming_pop_transaction, h]

/-- Witness for the amended C6: the skipped first row ends the run. -/
theorem claim_C6_first_row_only_witness :
    run_pop_automation_loop envAllOk dbProcessedF1 "p9" (some [rowF1, rowF2])
      = ⟨dbProcessedF1, Option.none, [rowF1.file_id], []⟩ :=
  (claim_C6_first_row_only envAllOk dbProcessedF1 "p9" rowF1 [rowF2]).2.2.1 (by rfl)

end StarPop
